import Mathlib

/-!
Verification of the EUPS package-distribution core (builder and eupspkg
mechanisms) against its natural-language specification.

The definitions below are a shallow embedding of the Python source files
`python/eups/distrib/builder.py` and `python/eups/distrib/eupspkg.py`.
Strings are modelled as `List Char` (the representation of Lean `String`),
machine effects (filesystem, environment, external processes) as explicit
oracle records, and fallible or possibly diverging code through the
`PyResult` carrier with an explicit fuel parameter where the source
contains an unbounded loop.
-/

namespace Eups

/-- Result carrier for embedded Python code: a value, exhaustion of the
fuel bound used to model an unbounded source loop, or an excursion into
behaviour deliberately left unmodelled (never reached by the claims). -/
inductive PyResult (α : Type) where
  | ok (val : α)
  | fuelOut
  | unmodeled
  deriving DecidableEq, Repr

/-- Characters accepted by Python `str.strip()` and the regex class
`\s` (space, tab, newline, carriage return, form feed, vertical tab). -/
def isPySpace (c : Char) : Bool :=
  c = ' ' || c = '\t' || c = '\n' || c = '\x0d' || c = '\x0c' || c = '\x0b'

/-- Python `str.strip()`: remove leading and trailing whitespace. -/
def pyStrip (l : List Char) : List Char :=
  (l.dropWhile isPySpace).rdropWhile isPySpace

/-- Python `str.upper()` restricted to ASCII, as used on variable names. -/
def pyUpper (l : List Char) : List Char :=
  l.map Char.toUpper

/-- Truthiness of an optional Python string: `None` and `""` are falsy. -/
def pyTruthy : Option (List Char) → Bool
  | none => false
  | some s => s ≠ []

/-- Split a string on a separator character, Python `str.split(sep)`
semantics (adjacent separators yield empty fields). -/
def pySplitOn (sep : Char) : List Char → List (List Char)
  | [] => [[]]
  | c :: rest =>
    let r := pySplitOn sep rest
    if c = sep then [] :: r
    else
      match r with
      | [] => [[c]]
      | f :: fs => (c :: f) :: fs

/-- Two-argument `os.path.join` for POSIX paths as used by the source:
an absolute second component replaces the first, otherwise the parts are
glued with a single `/` unless the first is empty or already ends in `/`. -/
def pyJoin (a b : List Char) : List Char :=
  if b.head? = some '/' then b
  else if a = [] then b
  else if a.getLast? = some '/' then a ++ b
  else a ++ '/' :: b

/-- First `some` produced by `f` over a list, in order. -/
def firstSome {α β : Type} (f : α → Option β) : List α → Option β
  | [] => none
  | a :: rest =>
    match f a with
    | some b => some b
    | none => firstSome f rest

/-- Python `str.rstrip()`: remove trailing whitespace. -/
def pyRstrip (l : List Char) : List Char :=
  l.rdropWhile isPySpace

/-- Substring test: `needle` occurs contiguously inside `hay`. -/
def containsSub (needle : List Char) : List Char → Bool
  | [] => needle.isPrefixOf []
  | c :: rest => needle.isPrefixOf (c :: rest) || containsSub needle rest

/-- Does some suffix of the list satisfy the head-anchored matcher `p`?
This is the scan performed by an unanchored `re.search`. -/
def existsSuffix (p : List Char → Bool) : List Char → Bool
  | [] => p []
  | c :: rest => p (c :: rest) || existsSuffix p rest

/-- Python `str.replace(old, new)` for a non-empty `old`: replace all
non-overlapping occurrences, scanning left to right.  The `n` bound is
initialised to the string length; every step consumes at least one
character, so the bound is never the limiting factor. -/
def replaceAllGo (old new : List Char) : Nat → List Char → List Char
  | _, [] => []
  | 0, l => l
  | n + 1, c :: rest =>
    if old.isPrefixOf (c :: rest) && old ≠ [] then
      new ++ replaceAllGo old new n ((c :: rest).drop old.length)
    else c :: replaceAllGo old new n rest

/-- Python `str.replace(old, new)` (all occurrences). -/
def pyReplaceAll (old new l : List Char) : List Char :=
  replaceAllGo old new l.length l

/-- Python `str.title()` for ASCII: uppercase a letter that follows a
non-letter, lowercase the other letters. -/
def pyTitleGo : Bool → List Char → List Char
  | _, [] => []
  | prevAlpha, c :: rest =>
    (if prevAlpha then c.toLower else c.toUpper) :: pyTitleGo c.isAlpha rest

/-- Python `str.title()`. -/
def pyTitle (l : List Char) : List Char :=
  pyTitleGo false l

/-- Strip one trailing newline, the effect of `re.sub(r"\n$", "", s)` on
a single line read with `readline()`. -/
def stripOneNl (l : List Char) : List Char :=
  if l.getLast? = some '\n' then l.dropLast else l

/-- The list `[n, n-1, ..., 0]`, used to enumerate greedy backtracking
candidates from longest to shortest. -/
def downFrom : Nat → List Nat
  | 0 => [0]
  | n + 1 => (n + 1) :: downFrom n

/-- Python regex metacharacters; a pattern free of them matches
literally. -/
def isReMeta (c : Char) : Bool :=
  c = '.' || c = '^' || c = '$' || c = '*' || c = '+' || c = '?' ||
  c = '\x7b' || c = '\x7d' || c = '[' || c = ']' || c = '\\' || c = '|' ||
  c = '(' || c = ')'

/-- `re.sub(pattern, repl, value)` for the user-supplied arguments of a
`.sub(...)` operation chain: modelled only for a non-empty metacharacter
free pattern and a backslash-free replacement, where it coincides with
literal replace-all; anything else is left unmodelled. -/
def pyReSubLit (pat repl value : List Char) : PyResult (List Char) :=
  if pat.all (fun c => !(isReMeta c)) && repl.all (fun c => c ≠ '\\') && pat ≠ [] then
    .ok (pyReplaceAll pat repl value)
  else .unmodeled

/-! ## Distribution identifier codec (builder.py 69-83, 270-281;
eupspkg.py 366-380, 504-515) -/

/-- Distribution-ID parser shared by both mechanisms: strip the string
and remove the given mechanism prefix if and only if it is present;
an empty input or a foreign prefix yields `none` (builder.py 69-83,
eupspkg.py 366-380). -/
def parseDistIDWith (pre : List Char) (distID : List Char) : Option (List Char) :=
  if distID ≠ [] then
    let d := pyStrip distID
    if pre.isPrefixOf d then some (d.drop pre.length) else none
  else none

/-- The `build:` prefix of the builder mechanism. -/
def buildPrefix : List Char := "build:".data

/-- The `eupspkg:` prefix of the eupspkg mechanism. -/
def eupspkgPrefix : List Char := "eupspkg:".data

/-- Builder `Distrib.parseDistID` (builder.py 69-83). -/
def builderParseDistID (distID : List Char) : Option (List Char) :=
  parseDistIDWith buildPrefix distID

/-- EupsPkg `Distrib.parseDistID` (eupspkg.py 366-380). -/
def eupspkgParseDistID (distID : List Char) : Option (List Char) :=
  parseDistIDWith eupspkgPrefix distID

/-- Builder `Distrib.getDistIdForPackage` (builder.py 270-281); the
`flavor` argument is accepted and ignored by the source. -/
def builderGetDistIdForPackage (product version : List Char)
    (_flavor : Option (List Char)) : List Char :=
  buildPrefix ++ product ++ '-' :: version ++ ".build".data

/-- EupsPkg `Distrib.getDistIdForPackage` (eupspkg.py 504-515); the
`flavor` argument is accepted and ignored by the source. -/
def eupspkgGetDistIdForPackage (product version : List Char)
    (_flavor : Option (List Char)) : List Char :=
  eupspkgPrefix ++ product ++ '-' :: version ++ ".eupspkg".data

/-- Path consulted by builder `Distrib.packageCreated` (builder.py
283-298): `os.path.join(serverDir, "builds", location)`. -/
def builderPackagePath (serverDir location : List Char) : List Char :=
  pyJoin (pyJoin serverDir "builds".data) location

/-- Path consulted by eupspkg `Distrib.packageCreated` (eupspkg.py
517-531): `os.path.join(serverDir, "products", location)`. -/
def eupspkgPackagePath (serverDir location : List Char) : List Char :=
  pyJoin (pyJoin serverDir "products".data) location

/-- Builder `Distrib.packageCreated` (builder.py 283-298): parse the
generated distribution ID and test the corresponding artifact path for
existence; `none` models the crash `os.path.join` would raise if the
parse ever failed. -/
def builderPackageCreated (ex : List Char → Bool) (serverDir product version : List Char)
    (flavor : Option (List Char)) : Option Bool :=
  (builderParseDistID (builderGetDistIdForPackage product version flavor)).map
    (fun loc => ex (builderPackagePath serverDir loc))

/-- EupsPkg `Distrib.packageCreated` (eupspkg.py 517-531). -/
def eupspkgPackageCreated (ex : List Char → Bool) (serverDir product version : List Char)
    (flavor : Option (List Char)) : Option Bool :=
  (eupspkgParseDistID (eupspkgGetDistIdForPackage product version flavor)).map
    (fun loc => ex (eupspkgPackagePath serverDir loc))

lemma pyStrip_eq_self_of_ends {c : Char} {m s : List Char}
    (hc : isPySpace c = false) (hs : s ≠ [])
    (hlast : ∀ d, s.getLast? = some d → isPySpace d = false) :
    pyStrip (c :: (m ++ s)) = c :: (m ++ s) := by
  unfold pyStrip
  rw [List.dropWhile_cons]
  simp only [hc, Bool.false_eq_true, if_false]
  rw [List.rdropWhile_eq_self_iff.mpr]
  intro hl
  have h1 : (c :: (m ++ s)).getLast? = s.getLast? := by
    have : (c :: m) ++ s = c :: (m ++ s) := rfl
    rw [← this, List.getLast?_append]
    cases h : s.getLast? with
    | none => exact absurd (List.getLast?_eq_none_iff.mp h) hs
    | some d => rfl
  have h2 := List.getLast?_eq_getLast (c :: (m ++ s)) hl
  rw [h2] at h1
  intro hp
  exact absurd hp (by simpa using hlast _ h1.symm)

lemma pyStrip_buildId (p v : List Char) :
    pyStrip (buildPrefix ++ p ++ '-' :: v ++ ".build".data)
      = buildPrefix ++ p ++ '-' :: v ++ ".build".data := by
  have h : buildPrefix ++ p ++ '-' :: v ++ ".build".data
      = 'b' :: (("uild:".data ++ p ++ '-' :: v) ++ ".build".data) := by
    simp [buildPrefix]
  rw [h]
  apply pyStrip_eq_self_of_ends (by decide) (by decide)
  intro d hd
  simp only [show (".build".data : List Char) = ['.','b','u','i','l','d'] from rfl] at hd
  simp at hd
  rw [← hd]
  decide

lemma pyStrip_eupspkgId (p v : List Char) :
    pyStrip (eupspkgPrefix ++ p ++ '-' :: v ++ ".eupspkg".data)
      = eupspkgPrefix ++ p ++ '-' :: v ++ ".eupspkg".data := by
  have h : eupspkgPrefix ++ p ++ '-' :: v ++ ".eupspkg".data
      = 'e' :: (("upspkg:".data ++ p ++ '-' :: v) ++ ".eupspkg".data) := by
    simp [eupspkgPrefix]
  rw [h]
  apply pyStrip_eq_self_of_ends (by decide) (by decide)
  intro d hd
  simp only [show (".eupspkg".data : List Char) = ['.','e','u','p','s','p','k','g'] from rfl] at hd
  simp at hd
  rw [← hd]
  decide

lemma parseDistIDWith_append (pre rest : List Char) (hpre : pre ≠ [])
    (hstrip : pyStrip (pre ++ rest) = pre ++ rest) :
    parseDistIDWith pre (pre ++ rest) = some rest := by
  unfold parseDistIDWith
  rw [if_pos (by simp [hpre]), hstrip, if_pos (by simp [List.isPrefixOf_iff_prefix]),
    List.drop_left]

/-- Claim C6: for every product, version and flavor, `parseDistID`
applied to `getDistIdForPackage` recovers exactly the location part used
to build the artifact path (`p-v.build` for builder, `p-v.eupspkg` for
eupspkg); the generated ID is independent of the flavor; and `parseDistID`
of a string whose trimmed form does not start with the mechanism prefix
returns `none` rather than an error. -/
theorem claim_C6_distid_roundtrip (p v serverDir : List Char)
    (f f' : Option (List Char)) (ex : List Char → Bool) :
    builderParseDistID (builderGetDistIdForPackage p v f)
        = some (p ++ '-' :: v ++ ".build".data) ∧
    eupspkgParseDistID (eupspkgGetDistIdForPackage p v f)
        = some (p ++ '-' :: v ++ ".eupspkg".data) ∧
    builderGetDistIdForPackage p v f = builderGetDistIdForPackage p v f' ∧
    eupspkgGetDistIdForPackage p v f = eupspkgGetDistIdForPackage p v f' ∧
    builderPackageCreated ex serverDir p v f
        = some (ex (builderPackagePath serverDir (p ++ '-' :: v ++ ".build".data))) ∧
    eupspkgPackageCreated ex serverDir p v f
        = some (ex (eupspkgPackagePath serverDir (p ++ '-' :: v ++ ".eupspkg".data))) ∧
    (∀ s : List Char, buildPrefix.isPrefixOf (pyStrip s) = false →
      builderParseDistID s = none) ∧
    (∀ s : List Char, eupspkgPrefix.isPrefixOf (pyStrip s) = false →
      eupspkgParseDistID s = none) := by
  have hb : builderParseDistID (builderGetDistIdForPackage p v f)
      = some (p ++ '-' :: v ++ ".build".data) := by
    unfold builderParseDistID builderGetDistIdForPackage
    have := parseDistIDWith_append buildPrefix (p ++ '-' :: v ++ ".build".data)
      (by decide) (by simpa using pyStrip_buildId p v)
    simpa using this
  have he : eupspkgParseDistID (eupspkgGetDistIdForPackage p v f)
      = some (p ++ '-' :: v ++ ".eupspkg".data) := by
    unfold eupspkgParseDistID eupspkgGetDistIdForPackage
    have := parseDistIDWith_append eupspkgPrefix (p ++ '-' :: v ++ ".eupspkg".data)
      (by decide) (by simpa using pyStrip_eupspkgId p v)
    simpa using this
  refine ⟨hb, he, rfl, rfl, ?_, ?_, ?_, ?_⟩
  · unfold builderPackageCreated
    rw [hb]
    rfl
  · unfold eupspkgPackageCreated
    rw [he]
    rfl
  · intro s hs
    unfold builderParseDistID parseDistIDWith
    by_cases h : s = []
    · simp [h]
    · rw [if_pos (by simpa using h), if_neg (by simp [hs])]
  · intro s hs
    unfold eupspkgParseDistID parseDistIDWith
    by_cases h : s = []
    · simp [h]
    · rw [if_pos (by simpa using h), if_neg (by simp [hs])]

/-- Witness for C6: the round trip and the rejection of a foreign prefix,
evaluated at the product `afw`, version `7.3`, flavor `Linux64`. -/
theorem claim_C6_distid_roundtrip_witness :
    builderParseDistID (builderGetDistIdForPackage "afw".data "7.3".data
        (some "Linux64".data)) = some "afw-7.3.build".data ∧
    builderParseDistID "pacman:afw-7.3".data = none := by
  have h := claim_C6_distid_roundtrip "afw".data "7.3".data [] none none
    (fun _ => false)
  refine ⟨?_, ?_⟩
  · have := (claim_C6_distid_roundtrip "afw".data "7.3".data []
      (some "Linux64".data) none (fun _ => false)).1
    simpa using this
  · exact h.2.2.2.2.2.2.1 "pacman:afw-7.3".data (by decide)

/-! ## Variable binding store

`builderVars` is a Python dict mapping upper-case names to string values;
a stored value may be `None` (the failed `guess` results), so entries are
`Option (List Char)`.  `storeGet` models `has_key` plus item access,
`storeGetVal` models `.get(k)` (absent and stored-`None` both read as
`None`), `storeSet` models item assignment. -/

/-- An association list standing for the `builderVars` dictionary. -/
def Store : Type := List (List Char × Option (List Char))

/-- Dictionary membership plus lookup: `some v` iff the key is present
with stored value `v` (which may itself be the Python `None`). -/
def storeGet (bv : Store) (k : List Char) : Option (Option (List Char)) :=
  match bv with
  | [] => none
  | (k', v) :: rest => if k' = k then some v else storeGet rest k

/-- Python `dict.get(k)`: `None` when the key is absent. -/
def storeGetVal (bv : Store) (k : List Char) : Option (List Char) :=
  match storeGet bv k with
  | some v => v
  | none => none

/-- Python item assignment `bv[k] = v`. -/
def storeSet (bv : Store) (k : List Char) (v : Option (List Char)) : Store :=
  match bv with
  | [] => [(k, v)]
  | (k', v') :: rest => if k' = k then (k, v) :: rest else (k', v') :: storeSet rest k v

/-! ## Template expander (builder.py 534-693) -/

/-- User-facing diagnostics printed to stderr by the expander, kept as
structured tokens: `cantGuess var` stands for the message naming the
configuration key `hooks.config.distrib["builder"]["variables"][var]`
and the environment variable `$var` (builder.py 610), `unexpectedModifier`
for the unknown-operation warning (builder.py 640), `callbackWarning` for
a rewrite-callback failure (builder.py 691). -/
inductive Diag where
  | cantGuess (var : List Char)
  | unexpectedModifier (op : List Char)
  | callbackWarning
  deriving DecidableEq, Repr

/-- The regex `^(\$)?([^\.]+)(?:\.(.*))?` applied to a token body
(builder.py 602): an optional leading `$`, a variable name running to the
first dot, and the remaining operation chain.  `none` models the
`AttributeError` the source raises when the match fails (body starting
with a dot). -/
def parseVarExpr (body : List Char) : Option (Bool × List Char × Option (List Char)) :=
  match body with
  | [] => none
  | c :: rest =>
    if c = '$' && (match rest with | d :: _ => d ≠ '.' | [] => false) then
      some (true, rest.takeWhile (fun d => d ≠ '.'),
        opOfTail (rest.dropWhile (fun d => d ≠ '.')))
    else if c ≠ '.' then
      some (false, (c :: rest).takeWhile (fun d => d ≠ '.'),
        opOfTail ((c :: rest).dropWhile (fun d => d ≠ '.')))
    else none
where
  opOfTail : List Char → Option (List Char)
    | [] => none
    | _ :: t => some t

/-- Is the character one of the two Python quote characters of the
class `["']`? -/
def isQuote (c : Char) : Bool :=
  c = '\"' || c = '\''

/-- The fragment `r?["']` of `replace_re`/`sub_re` (builder.py 618-620):
an optional raw-string marker followed by either quote. -/
def pQuoteOpen : List Char → Option (List Char)
  | [] => none
  | c :: rest =>
    if isQuote c then some rest
    else if c = 'r' then
      match rest with
      | d :: rest2 => if isQuote d then some rest2 else none
      | [] => none
    else none

/-- The fragment `r?["']([^"']+)["']` (or with `*` when `allowEmpty`):
a quoted argument whose body contains neither quote character, closed by
either quote character. -/
def pArg (allowEmpty : Bool) (l : List Char) : Option (List Char × List Char) :=
  match pQuoteOpen l with
  | none => none
  | some r =>
    let content := r.takeWhile (fun c => !(isQuote c))
    let rest := r.dropWhile (fun c => !(isQuote c))
    if !allowEmpty && content = [] then none
    else
      match rest with
      | _ :: rest2 => some (content, rest2)
      | [] => none

/-- Head-anchored match of `verb\s*\(\s*ARG\s*,\s*ARG\s*\)` against the
operation chain, the shared shape of `replace_re` and `sub_re`
(builder.py 618-620); returns both arguments and the remainder of the
chain after the matched span (`op[len(mat.group(0)):]`). -/
def parseOpCall (verb : List Char) (secondMayBeEmpty : Bool) (op : List Char) :
    Option (List Char × List Char × List Char) :=
  if verb.isPrefixOf op then
    let r2 := (op.drop verb.length).dropWhile isPySpace
    match r2 with
    | '(' :: r3 =>
      match pArg false (r3.dropWhile isPySpace) with
      | none => none
      | some (a1, r5) =>
        match r5.dropWhile isPySpace with
        | ',' :: r7 =>
          match pArg secondMayBeEmpty (r7.dropWhile isPySpace) with
          | none => none
          | some (a2, r9) =>
            match r9.dropWhile isPySpace with
            | ')' :: r11 => some (a1, a2, r11)
            | _ => none
        | _ => none
    | _ => none
  else none

/-- Strip one leading dot: `if op and op[0] == ".": op = op[1:]`
(builder.py 642-643). -/
def stripLeadDot : List Char → List Char
  | '.' :: r => r
  | l => l

/-- The operation-chain loop `while op:` of `subVar` (builder.py
613-643).  Each iteration tries, in source order, a `replace(...)` call,
a `sub(...)` call, then the literal chains `lower()`, `title()`,
`upper()`; an unrecognized operation only prints a warning and leaves
`op` unchanged, after which at most one leading dot is stripped.  `fuel`
bounds the number of iterations; the source loop itself is unbounded. -/
def applyOps (fuel : Nat) (op value : List Char) (diags : List Diag) :
    PyResult (List Char × List Diag) :=
  if op = [] then .ok (value, diags)
  else
    match fuel with
    | 0 => .fuelOut
    | n + 1 =>
      match parseOpCall "replace".data false op with
      | some (o, nw, rest) =>
        applyOps n (stripLeadDot rest) (pyReplaceAll o nw value) diags
      | none =>
        match parseOpCall "sub".data true op with
        | some (pt, rp, rest) =>
          match pyReSubLit pt rp value with
          | .ok v => applyOps n (stripLeadDot rest) v diags
          | _ => .unmodeled
        | none =>
          if op = "lower()".data then
            applyOps n (stripLeadDot []) (value.map Char.toLower) diags
          else if op = "title()".data then
            applyOps n (stripLeadDot []) (pyTitle value) diags
          else if op = "upper()".data then
            applyOps n (stripLeadDot []) (value.map Char.toUpper) diags
          else
            applyOps n (stripLeadDot op) value (diags ++ [Diag.unexpectedModifier op])

/-- The substitution callback `subVar` (builder.py 597-650): parse the
token body, uppercase the name, and look it up.  A present but falsy
value yields the `cantGuess` diagnostic and the literal uppercased name
as fallback; an absent key yields the literal placeholder `XXX` with no
diagnostic; a leading `$` wraps the final value as a shell default
expression. -/
def subVarRes (fuel : Nat) (bv : Store) (body : List Char) :
    PyResult (List Char × List Diag) :=
  match parseVarExpr body with
  | none => .unmodeled
  | some (dollar, var0, opChain) =>
    let var := pyUpper var0
    match storeGet bv var with
    | none => .ok ("XXX".data, [])
    | some v0 =>
      let start : List Char × List Diag :=
        if pyTruthy v0 then (v0.getD [], []) else (var, [Diag.cantGuess var])
      match applyOps fuel (opChain.getD []) start.1 start.2 with
      | .ok (v, ds) =>
        .ok ((if dollar then "$\x7b".data ++ var ++ ":-".data ++ v ++ "\x7d".data else v), ds)
      | .fuelOut => .fuelOut
      | .unmodeled => .unmodeled

/-- Prepend a literal character to the output of a substitution result. -/
def consRes (c : Char) : PyResult (List Char × List Diag) → PyResult (List Char × List Diag)
  | .ok (l, ds) => .ok (c :: l, ds)
  | .fuelOut => .fuelOut
  | .unmodeled => .unmodeled

/-- The token scan `re.sub(r"@([^@]+)@", subVar, line)` (builder.py 686):
replace every non-overlapping leftmost span `@body@` with a non-empty
body by `subVar body`, collecting diagnostics in output order.  The step
bound is initialised to the line length; every recursion consumes at
least one character, so the bound is never the limiting factor. -/
def substTokensGo (fuel : Nat) (bv : Store) : Nat → List Char → PyResult (List Char × List Diag)
  | _, [] => .ok ([], [])
  | 0, l => .ok (l, [])
  | n + 1, c :: rest =>
    if c = '@' then
      match rest.dropWhile (fun d => d ≠ '@') with
      | '@' :: tail =>
        if rest.takeWhile (fun d => d ≠ '@') = [] then
          consRes '@' (substTokensGo fuel bv n rest)
        else
          match subVarRes fuel bv (rest.takeWhile (fun d => d ≠ '@')) with
          | .ok (v, ds) =>
            match substTokensGo fuel bv n tail with
            | .ok (out, ds') => .ok (v ++ out, ds ++ ds')
            | .fuelOut => .fuelOut
            | .unmodeled => .unmodeled
          | .fuelOut => .fuelOut
          | .unmodeled => .unmodeled
      | _ => consRes '@' (substTokensGo fuel bv n rest)
    else consRes c (substTokensGo fuel bv n rest)

/-- Token substitution over a whole line. -/
def substTokens (fuel : Nat) (bv : Store) (l : List Char) :
    PyResult (List Char × List Diag) :=
  substTokensGo fuel bv l.length l

/-! ## Per-line protocol rewrites (builder.py 656-693) -/

/-- Head-anchored match of `(hg\s+up\s+)@VERSION@` (builder.py 665):
returns the first capture group and the remainder after the whole
match. -/
def hgUpTry (l : List Char) : Option (List Char × List Char) :=
  match l with
  | 'h' :: 'g' :: r =>
    let w1 := r.takeWhile isPySpace
    if w1 = [] then none
    else
      match r.dropWhile isPySpace with
      | 'u' :: 'p' :: r2 =>
        let w2 := r2.takeWhile isPySpace
        let r3 := r2.dropWhile isPySpace
        if w2 = [] then none
        else if "@VERSION@".data.isPrefixOf r3 then
          some ('h' :: 'g' :: w1 ++ 'u' :: 'p' :: w2, r3.drop 9)
        else none
      | _ => none
  | _ => none

/-- `re.sub(r"(hg\s+up\s+)@VERSION@", r"\1@REPOVERSION@", line)`
(builder.py 665), scanning left to right; the bound is initialised to the
line length and every step consumes at least one character. -/
def hgUpSubGo : Nat → List Char → List Char
  | _, [] => []
  | 0, l => l
  | n + 1, c :: rest =>
    match hgUpTry (c :: rest) with
    | some (g1, tail) => g1 ++ "@REPOVERSION@".data ++ hgUpSubGo n tail
    | none => c :: hgUpSubGo n rest

/-- The unconditional `hg up` version rewrite applied to every line. -/
def hgUpSub (l : List Char) : List Char :=
  hgUpSubGo l.length l

/-- The guard `re.search(r"^\s*(svn|cvs)\s+(co|checkout)", line)`
(builder.py 662): optional leading whitespace, `svn` or `cvs`, at least
one whitespace, then `co` or `checkout`. -/
def isVcCheckoutLine (l : List Char) : Bool :=
  let r := l.dropWhile isPySpace
  if "svn".data.isPrefixOf r || "cvs".data.isPrefixOf r then
    let r2 := r.drop 3
    r2.takeWhile isPySpace ≠ [] &&
      ("co".data.isPrefixOf (r2.dropWhile isPySpace) ||
        "checkout".data.isPrefixOf (r2.dropWhile isPySpace))
  else false

/-- Candidate matches of the first capture group
`(svn\S*:|http\S*:|@SVNROOT@|@CVSROOT@)` (builder.py 663) at the head of
`l`, in the backtracking order of the Python engine: alternatives left to
right, and within `tool\S*:` the greedy split with the longest `\S*`
first.  Each candidate is the captured text with the remainder. -/
def vcG1Cands (l : List Char) : List (List Char × List Char) :=
  (if "svn".data.isPrefixOf l then vcToolColon "svn".data (l.drop 3) else [])
  ++ (if "http".data.isPrefixOf l then vcToolColon "http".data (l.drop 4) else [])
  ++ (if "@SVNROOT@".data.isPrefixOf l then [("@SVNROOT@".data, l.drop 9)] else [])
  ++ (if "@CVSROOT@".data.isPrefixOf l then [("@CVSROOT@".data, l.drop 9)] else [])
where
  vcToolColon (tool : List Char) (r : List Char) : List (List Char × List Char) :=
    (downFrom (r.takeWhile (fun c => !(isPySpace c))).length).filterMap (fun k =>
      if r[k]? = some ':' then some (tool ++ r.take k ++ [':'], r.drop (k + 1))
      else none)

/-- Head-anchored match of the tail `(\S+/)@VERSION@(\S*)` of the
checkout rewrite pattern (builder.py 663): a non-empty run of
non-whitespace ending in `/` (greedy, longest first), the literal
`@VERSION@`, and a greedy trailing run; returns the two captures and the
remainder. -/
def vcTail (r : List Char) : Option (List Char × List Char × List Char) :=
  firstSome (fun j =>
    if 1 ≤ j && r[j]? = some '/' then
      let after := r.drop (j + 1)
      if "@VERSION@".data.isPrefixOf after then
        let rest := after.drop 9
        let g3 := rest.takeWhile (fun c => !(isPySpace c))
        some (r.take (j + 1), g3, rest.drop g3.length)
      else none
    else none)
    (downFrom (r.takeWhile (fun c => !(isPySpace c))).length)

/-- A full head-anchored match of the checkout rewrite pattern: the
replacement text `\1\2@REPOVERSION@\3` for the matched span together
with the remainder of the line. -/
def vcMatchAt (l : List Char) : Option (List Char × List Char) :=
  firstSome (fun c =>
    (vcTail c.2).map (fun t => (c.1 ++ t.1 ++ "@REPOVERSION@".data ++ t.2.1, t.2.2)))
    (vcG1Cands l)

/-- The checkout-line rewrite
`re.sub(r"(svn\S*:|http\S*:|@SVNROOT@|@CVSROOT@)(\S+/)@VERSION@(\S*)",
r"\1\2@REPOVERSION@\3", line)` (builder.py 663-664), scanning left to
right with the length of the line as step bound. -/
def vcSubGo : Nat → List Char → List Char
  | _, [] => []
  | 0, l => l
  | n + 1, c :: rest =>
    match vcMatchAt (c :: rest) with
    | some (repl, tail) => repl ++ vcSubGo n tail
    | none => c :: vcSubGo n rest

/-- The checkout-line version rewrite. -/
def vcCheckoutSub (l : List Char) : List Char :=
  vcSubGo l.length l

/-- The guard `re.search(r"^\s*scons\s+.*install", line)` (builder.py
669): optional leading whitespace, `scons`, at least one whitespace, and
`install` occurring anywhere afterwards. -/
def matchesSconsInstall (l : List Char) : Bool :=
  let r := l.dropWhile isPySpace
  if "scons".data.isPrefixOf r then
    let r2 := r.drop 5
    r2.takeWhile isPySpace ≠ [] && containsSub "install".data (r2.dropWhile isPySpace)
  else false

/-- Head-anchored match of `\sversion=\S+` (builder.py 670): one
whitespace, the literal `version=`, one or more non-whitespace. -/
def isVerMatchAt (l : List Char) : Bool :=
  match l with
  | c :: rest =>
    isPySpace c && "version=".data.isPrefixOf rest &&
      (match rest.drop 8 with
       | d :: _ => !(isPySpace d)
       | [] => false)
  | [] => false

/-- `re.sub(r"\sversion=\S+", "", line)` (builder.py 670): delete every
non-overlapping match, scanning left to right. -/
def stripVersionArgsGo : Nat → List Char → List Char
  | _, [] => []
  | 0, l => l
  | n + 1, c :: rest =>
    if isVerMatchAt (c :: rest) then
      stripVersionArgsGo n ((rest.drop 8).dropWhile (fun d => !(isPySpace d)))
    else c :: stripVersionArgsGo n rest

/-- Strip all `version=...` arguments from a line. -/
def stripVersionArgs (l : List Char) : List Char :=
  stripVersionArgsGo l.length l

/-- Does the line contain a `\sversion=\S+` match anywhere? -/
def hasVersionArg (l : List Char) : Bool :=
  existsSuffix isVerMatchAt l

/-- Head-anchored match of `\sbaseversion=\S+` (builder.py 672). -/
def isBaseverMatchAt (l : List Char) : Bool :=
  match l with
  | c :: rest =>
    isPySpace c && "baseversion=".data.isPrefixOf rest &&
      (match rest.drop 12 with
       | d :: _ => !(isPySpace d)
       | [] => false)
  | [] => false

/-- The guard `re.search(r"\sbaseversion=\S+", line)` (builder.py 672). -/
def hasBaseversionArg (l : List Char) : Bool :=
  existsSuffix isBaseverMatchAt l

/-- The scons-install rewrite (builder.py 669-674): strip every existing
`version=` argument, append ` version=@VERSION@`, and append
` baseversion=@REPOVERSION@` unless a `baseversion=` argument is already
present. -/
def sconsRewrite (l : List Char) : List Char :=
  let l1 := stripVersionArgs l
  let l2 := l1 ++ " version=@VERSION@".data
  if hasBaseversionArg l2 then l2 else l2 ++ " baseversion=@REPOVERSION@".data

/-! ## Rewrite-callback chain (builder.py 473-528) -/

/-- The single system callback registered at module load (builder.py
528): `re.sub(r"/tags/svn", "/trunk -r ", line)`, a literal pattern. -/
def tagsSvnCallback (l : List Char) : List Char :=
  pyReplaceAll "/tags/svn".data "/trunk -r ".data l

/-- `BuildfilePatchCallbacks.apply` (builder.py 502-508): fold the system
callbacks then the user callbacks over the line, in registration order. -/
def applyCallbacks (cbs : List (List Char → List Char)) (l : List Char) : List Char :=
  cbs.foldl (fun acc c => c acc) l

/-- The default registry: the one system callback, no user callbacks
(builder.py 521-528). -/
def defaultCallbacks : List (List Char → List Char) :=
  [tagsSvnCallback]

/-- One iteration of the expansion loop (builder.py 656-693) on a line
already read from the build file, against a seeded binding store: strip
trailing whitespace, apply the checkout rewrite when the line is a
`svn`/`cvs` checkout, the unconditional `hg up` rewrite, the
scons-install rewrite when the line is a scons install, substitute the
`@...@` tokens, and run the callback chain on the result. -/
def expandBuildLine (fuel : Nat) (bv : Store) (line : List Char) :
    PyResult (List Char × List Diag) :=
  let l0 := pyRstrip line
  let l1 := if isVcCheckoutLine l0 then vcCheckoutSub l0 else l0
  let l2 := hgUpSub l1
  let l3 := if matchesSconsInstall l2 then sconsRewrite l2 else l2
  match substTokens fuel bv l3 with
  | .ok (out, ds) => .ok (applyCallbacks defaultCallbacks out, ds)
  | .fuelOut => .fuelOut
  | .unmodeled => .unmodeled

/-! ## Variable seeding and the `expandBuildFile` entry point
(builder.py 534-595) -/

/-- Oracle for the machine state consulted by the `guess_cvsroot` and
`guess_svnroot` helpers (builder.py 542-585): the two environment
variables, the presence of `CVS`/`.svn` metadata directories, the first
line of `CVS/Root` (`none` models the read failing with `IOError`), and
the repository root extracted from `svn info` output (`svnInfoRepoRoot`
from a `Repository Root:` line, `svnInfoURL` from the `URL:` fallback
used for svn 1.1). -/
structure GuessEnv where
  environCVSROOT : Option (List Char)
  environSVNROOT : Option (List Char)
  hasCVSDir : Bool
  cvsRootLine : Option (List Char)
  hasSvnDir : Bool
  svnInfoRepoRoot : Option (List Char)
  svnInfoURL : Option (List Char)

/-- `guess_cvsroot` (builder.py 542-555): keep a truthy value, else the
environment variable, else the first line of `CVS/Root` when a `CVS`
directory exists (a failed read only warns and leaves the value). -/
def guessCvsroot (E : GuessEnv) (cvsroot : Option (List Char)) : Option (List Char) :=
  if pyTruthy cvsroot then cvsroot
  else
    match E.environCVSROOT with
    | some v => some v
    | none =>
      if E.hasCVSDir then
        match E.cvsRootLine with
        | some line => some (stripOneNl line)
        | none => cvsroot
      else cvsroot

/-- `guess_svnroot` (builder.py 559-585): keep a truthy value, else the
environment variable, else probe `svn info` when a `.svn` directory
exists, preferring the `Repository Root:` line and falling back to the
`URL:` form. -/
def guessSvnroot (E : GuessEnv) (svnroot : Option (List Char)) : Option (List Char) :=
  if pyTruthy svnroot then svnroot
  else
    match E.environSVNROOT with
    | some v => some v
    | none =>
      if E.hasSvnDir then
        match E.svnInfoRepoRoot with
        | some r => some r
        | none =>
          match E.svnInfoURL with
          | some u => some u
          | none => svnroot
      else svnroot

/-- The assignments `expandBuildFile` performs on the caller-supplied
`builderVars` dictionary before expanding any line (builder.py 589-595):
`CVSROOT` and `SVNROOT` through the guessers, then `PRODUCT`, `VERSION`
and `REPOVERSION` (the latter defaulting to the version name). -/
def seedBuilderVars (E : GuessEnv) (bv : Store) (productName versionName : List Char)
    (repoVersionName : Option (List Char)) : Store :=
  let bv1 := storeSet bv "CVSROOT".data (guessCvsroot E (storeGetVal bv "CVSROOT".data))
  let bv2 := storeSet bv1 "SVNROOT".data (guessSvnroot E (storeGetVal bv1 "SVNROOT".data))
  let bv3 := storeSet bv2 "PRODUCT".data (some productName)
  let bv4 := storeSet bv3 "VERSION".data (some versionName)
  storeSet bv4 "REPOVERSION".data (some (repoVersionName.getD versionName))

/-- The expansion loop over the input lines (builder.py 656-693),
collecting output lines and diagnostics in order. -/
def expandBuildLines (fuel : Nat) (bv : Store) :
    List (List Char) → PyResult (List (List Char) × List Diag)
  | [] => .ok ([], [])
  | l :: rest =>
    match expandBuildLine fuel bv l with
    | .ok (o, ds) =>
      match expandBuildLines fuel bv rest with
      | .ok (os, ds') => .ok (o :: os, ds ++ ds')
      | .fuelOut => .fuelOut
      | .unmodeled => .unmodeled
    | .fuelOut => .fuelOut
    | .unmodeled => .unmodeled

/-- `expandBuildFile` (builder.py 534-693) over an explicit binding
store: seed the store in place, expand every line against it, and return
the output together with the store as left mutated (item assignment on
the Python dict is visible to the caller). -/
def expandBuildFileRun (fuel : Nat) (E : GuessEnv) (bv : Store)
    (productName versionName : List Char) (repoVersionName : Option (List Char))
    (lines : List (List Char)) :
    PyResult (List (List Char) × List Diag) × Store :=
  let bv' := seedBuilderVars E bv productName versionName repoVersionName
  (expandBuildLines fuel bv' lines, bv')

/-- A call to `expandBuildFile` under Python default-argument semantics
(builder.py 534: `builderVars={}`): the default dictionary is a single
module-level object, so a call made without an explicit `builderVars`
argument reads and mutates it, and the mutated dictionary is the default
seen by the next such call; an explicit argument leaves the module
default untouched.  Returns the call result paired with the module
default after the call. -/
def expandBuildFileCall (fuel : Nat) (E : GuessEnv) (arg : Option Store)
    (productName versionName : List Char) (repoVersionName : Option (List Char))
    (lines : List (List Char)) (moduleDefault : Store) :
    (PyResult (List (List Char) × List Diag) × Store) × Store :=
  match arg with
  | some bv => (expandBuildFileRun fuel E bv productName versionName repoVersionName lines,
      moduleDefault)
  | none =>
    let r := expandBuildFileRun fuel E moduleDefault productName versionName
      repoVersionName lines
    (r, r.2)

/-- A machine environment with nothing to guess from: no `CVSROOT` or
`SVNROOT` environment variables and no version-control metadata. -/
def emptyGuessEnv : GuessEnv :=
  ⟨none, none, false, none, false, none, none⟩

/-! ## Package creation (builder.py 158-268; eupspkg.py 424-502)

The filesystem and the external processes are oracles; the functions
below replay the source's control flow against them, recording the
effects the claims are about (was the template expanded, was the create
verb run, what state is the artifact file left in). -/

/-- State of an artifact file on disk. -/
inductive FileSt where
  | absent
  | halfWritten
  | complete
  deriving DecidableEq, Repr

/-- Outcome of the `expandBuildFile` call inside the guarded write block
(builder.py 247-258): it returns, a write raises `IOError` (caught at
builder.py 261 which unlinks the partial file), or it raises some other
exception (e.g. the `AttributeError` of a malformed token), which neither
`except RuntimeError` nor `except IOError` catches. -/
inductive ExpandOutcome where
  | success
  | ioError
  | attrError
  deriving DecidableEq, Repr

/-- Oracle for one builder `createPackage` call (builder.py 158-268). -/
structure BuilderCreateW where
  buildFile : Option (List Char)
  allowIncomplete : Bool
  force : Bool
  noaction : Bool
  buildsDirOk : Bool
  artifactReadable : Bool
  openReadOk : Bool
  openWriteOk : Bool
  expandOutcome : ExpandOutcome

/-- Effects of one builder `createPackage` call: whether the template
expander ran, and the final state of the artifact `builds/<builder>`. -/
structure BuilderTrace where
  expanded : Bool
  artifact : FileSt
  deriving DecidableEq, Repr

/-- Builder `Distrib.createPackage` (builder.py 158-268): locate the
build file (the oracle holds the result of the search and the
`template.build` fallback), create `builds/` if needed, return the
existing distribution ID when the artifact is readable and neither
`overwrite` nor `Eups.force` is set, and otherwise expand the template
into the artifact; an `IOError` during the write unlinks the partial
file, while any other exception from expansion escapes both handlers and
leaves it. -/
def builderCreatePackage (W : BuilderCreateW) (overwrite : Bool)
    (product letterVersion : List Char) :
    Except (List Char) (Option (List Char)) × BuilderTrace :=
  let builder := product ++ '-' :: letterVersion ++ ".build".data
  let initArt : FileSt := if W.artifactReadable then .complete else .absent
  match W.buildFile with
  | none =>
    if W.allowIncomplete then (.ok none, ⟨false, initArt⟩)
    else (.error "no build file found on the builder path".data, ⟨false, initArt⟩)
  | some _ =>
    if !W.buildsDirOk then
      (.error "Failed to create builds directory".data, ⟨false, initArt⟩)
    else if W.artifactReadable && !(overwrite || W.force) then
      (.ok (some (buildPrefix ++ builder)), ⟨false, initArt⟩)
    else if W.noaction then
      (.ok (some (buildPrefix ++ builder)), ⟨false, initArt⟩)
    else if !W.openReadOk then
      (.error "Failed to open build file for read".data, ⟨false, initArt⟩)
    else if !W.openWriteOk then
      (.error "Failed to open artifact for write".data, ⟨false, initArt⟩)
    else
      match W.expandOutcome with
      | .success => (.ok (some (buildPrefix ++ builder)), ⟨true, .complete⟩)
      | .ioError => (.error "Failed to write artifact".data, ⟨true, .absent⟩)
      | .attrError => (.error "unhandled exception from expansion".data, ⟨true, .halfWritten⟩)

/-- Oracle for one eupspkg `createPackage` call (eupspkg.py 424-502).
`createVerbOk` and `tarOk` are the outcomes of the two external commands
run through the `eupsServer.system` collaborator; per the spec's
external-interface contract a failing command surfaces as the `OSError`
the handler at eupspkg.py 493 catches. -/
structure EupspkgCreateW where
  pkgbuildInProduct : Bool
  createVerbOk : Bool
  productsDirOk : Bool
  tfnExists : Bool
  force : Bool
  noaction : Bool
  tarOk : Bool

/-- Effects of one eupspkg `createPackage` call. -/
structure EupspkgTrace where
  createVerbInvoked : Bool
  tarInvoked : Bool
  tmpdirRemoved : Bool
  tarball : FileSt
  deriving DecidableEq, Repr

/-- EupsPkg `Distrib.createPackage` (eupspkg.py 424-502): make a
temporary directory, run the external `pkgbuild create` verb in it
(unconditionally, before any existence check), create `products/` if
needed, and only then return the existing distribution ID when the
tarball already exists and neither `overwrite` nor `Eups.force` is set;
otherwise tar the temporary directory into the artifact, unlinking it if
`tar` fails.  The `finally:` clause removes the temporary directory on
every path. -/
def eupspkgCreatePackage (W : EupspkgCreateW) (overwrite : Bool)
    (product version : List Char) :
    Except (List Char) (List Char) × EupspkgTrace :=
  let distid := eupspkgPrefix ++ product ++ '-' :: version ++ ".eupspkg".data
  let initTar : FileSt := if W.tfnExists then .complete else .absent
  if !W.createVerbOk then
    (.error "pkgbuild create failed".data, ⟨true, false, true, initTar⟩)
  else if !W.productsDirOk then
    (.error "Failed to create products directory".data, ⟨true, false, true, initTar⟩)
  else if W.tfnExists && !(overwrite || W.force) then
    (.ok distid, ⟨true, false, true, initTar⟩)
  else if W.noaction then
    (.ok distid, ⟨true, false, true, initTar⟩)
  else if W.tarOk then
    (.ok distid, ⟨true, true, true, .complete⟩)
  else
    (.error "Failed to write tarball".data, ⟨true, true, true, .absent⟩)

/-! ## The synthesized eupspkg install script (eupspkg.py 533-670) -/

/-- `pipes.quote`: return the string unchanged when every character is
shell-safe (alphanumerics and `@%_-+=:,./`), quote it otherwise, doubling
embedded single quotes; the empty string quotes to two quotes. -/
def pipesQuoteSafe (c : Char) : Bool :=
  c.isAlphanum || c = '@' || c = '%' || c = '_' || c = '-' || c = '+' ||
  c = '=' || c = ':' || c = ',' || c = '.' || c = '/'

/-- `pipes.quote(s)`. -/
def pipesQuote (s : List Char) : List Char :=
  if s = [] then "\x27\x27".data
  else if s.all pipesQuoteSafe then s
  else '\x27' :: pyReplaceAll ['\x27'] "\x27\"\x27\"\x27".data s ++ ['\x27']

/-- One guarded verb line of the synthesized build script
(eupspkg.py 609, 612, 622-624): `( ./ups/pkgbuild <qopts> <verb><pad>) ||
exit <code>`. -/
def guardLine (qopts verb pad code : List Char) : List Char :=
  "( ./ups/pkgbuild ".data ++ qopts ++ ' ' :: verb ++ pad ++ ") || exit ".data ++ code

/-- The script text before the `%(buildDir)s` substitution. -/
def bsHead : List Char :=
  ("#!/bin/bash\n# ----\n# ---- This script has been autogenerated by " ++
   "\x27eups distrib install\x27.\n# ----\n\nset -xe\ncd ").data

/-- Between `%(buildDir)s` and `%(eupspkg)s`. -/
def bsAfterDir : List Char :=
  ("\n\n# sanitize the environment: unsetup any packages that were setup-ed\n" ++
   "for pkg in $(eups list -s | cut -d\x27 \x27 -f 1); do\n\tunsetup \"$pkg\"\ndone\n\n" ++
   "# Unpack the eupspkg tarball\ntar xzvf ").data

/-- Between `%(eupspkg)s` and `%(setups)s`. -/
def bsAfterTar : List Char :=
  ("\n\n# Enter the directory unpacked from the tarball\n" ++
   "PKGDIR=\"$(find . -maxdepth 1 -type d ! -name \".*\" | head -n 1)\"\n" ++
   "test ! -z $PKGDIR\ncd \"$PKGDIR\"\n\n" ++
   "# If ./ups/pkgbuild is not present, symlink in the default\n" ++
   "if [[ ! -e ./ups/pkgbuild ]]; then\n\tmkdir -p ./ups\n\t" ++
   "ln -s \"$EUPS_DIR/lib/eupspkg/pkgbuild.default\" ups/pkgbuild\nfi\n\n" ++
   "# eups setup the dependencies\n").data

/-- Between `%(setups)s` and the `fetch` guard. -/
def bsBeforeFetch : List Char :=
  "\n\n# fetch package source\n".data

/-- Between the `fetch` and `prep` guards. -/
def bsBeforePrep : List Char :=
  "\n\n# prepare for build (eg., apply platform-specific patches)\n".data

/-- Between the `prep` guard and the `config` guard: the self-setup of
the product being built. -/
def bsBeforeConfig : List Char :=
  ("\n\n# setup the package being built. note we\x27re using -k\n" ++
   "# to ensure setup-ed dependencies aren\x27t overridden by\n" ++
   "# the table file. we could\x27ve used -j instead, but then\n" ++
   "# \x27eups distrib install -j ...\x27 installs would fail as \n" ++
   "# these don\x27t traverse and setup the dependencies.\n" ++
   "setup --type=build -k -r .\n\n# configure, build, and install\n").data

/-- The script written to `<buildDir>/build.sh` (eupspkg.py 577-633),
with `pipes.quote` applied to the build directory and tarball path, the
setup commands joined by newlines, and the extra-options string
interpolated into each verb line. -/
def buildScriptText (buildDir tfname : List Char) (setups : List (List Char))
    (qopts : List Char) : List Char :=
  bsHead ++ pipesQuote buildDir ++ bsAfterDir ++ pipesQuote tfname ++ bsAfterTar ++
  List.intercalate "\n".data setups ++ bsBeforeFetch ++
  guardLine qopts "fetch".data " ".data "-1".data ++ bsBeforePrep ++
  guardLine qopts "prep".data "  ".data "-2".data ++ bsBeforeConfig ++
  guardLine qopts "config".data "  ".data "-3".data ++ '\n' ::
  guardLine qopts "build".data "   ".data "-4".data ++ '\n' ::
  guardLine qopts "install".data " ".data "-5".data ++ ['\n']

/-- The guarded verbs of the synthesized script in execution order with
their stage-identifying exit codes (eupspkg.py 609-624). -/
def pkgbuildGuards : List (List Char × Int) :=
  [("fetch".data, -1), ("prep".data, -2), ("config".data, -3),
   ("build".data, -4), ("install".data, -5)]

/-- Executing a sequence of guarded verbs under `set -xe`: the first verb
the oracle `fails` marks terminates the script with its exit code; if
none fails the script runs to the end (`none`). -/
def runGuardedVerbs (fails : List Char → Bool) : List (List Char × Int) → Option Int
  | [] => none
  | (v, code) :: rest => if fails v then some code else runGuardedVerbs fails rest

/-! ## EupsPkg installPackage entry (eupspkg.py 533-561) -/

/-- The first steps of eupspkg `Distrib.installPackage` relevant to the
build directory (eupspkg.py 557-561): the log path is computed by
`os.path.join(buildDir, "build.log")` BEFORE the `if not buildDir:`
default is applied, so a `None` argument raises inside `os.path.join`;
returns the log path, the effective build directory and whether the
`buildDir`/`EupsBuildDir` default was consulted. -/
def eupspkgInstallPre (defaultBuildDir : List Char) (buildDir : Option (List Char)) :
    Except (List Char) (List Char × List Char × Bool) :=
  match buildDir with
  | none => .error "AttributeError inside os.path.join(None, build.log)".data
  | some bd =>
    let logfile := pyJoin bd "build.log".data
    if bd = [] then .ok (logfile, defaultBuildDir, true)
    else .ok (logfile, bd, false)

/-! ## find_file_on_path (builder.py 429-469) -/

/-- Filesystem oracle for `find_file_on_path`: `expand` is
`os.path.expandvars(os.path.expanduser(.))`, `exists?` is
`os.path.exists`, and `walk` lists the `(dirpath, filenames)` pairs
`os.walk` would produce in order (the subdirectory lists the source also
unpacks are unused by its loop body). -/
structure FSOracle where
  expand : List Char → List Char
  exists? : List Char → Bool
  walk : List Char → List (List Char × List (List Char))

/-- The condition `re.match(bd, r"\*%")` (builder.py 445) with the
arguments in the order the source wrote them: the path element `bd` is
used as the PATTERN and matched against the literal three-character
string `\*%`.  Modelled for metacharacter-free `bd`, where it is a prefix
test of `bd` against `\*%`; a `bd` containing regex metacharacters is
left unmodelled. -/
def reMatchAgainstStarPct (bd : List Char) : PyResult Bool :=
  if bd.all (fun c => !(isReMeta c)) then .ok (bd.isPrefixOf ['\\', '*', '%'])
  else .unmodeled

/-- The `os.walk` loop of the recursive branch (builder.py 450-460):
return the first directory — skipped entirely when its path equals
`.svn` — whose file list contains `fileName`. -/
def walkFind (fs : FSOracle) (bd fileName : List Char) : Option (List Char) :=
  firstSome (fun e =>
    if e.1 = ".svn".data then none
    else if fileName ∈ e.2 then some (pyJoin e.1 fileName) else none)
    (fs.walk bd)

/-- The per-element loop of `find_file_on_path` (builder.py 436-469). -/
def findFileGo (fs : FSOracle) (fileName : List Char) (auxDir : Option (List Char)) :
    List (List Char) → PyResult (Option (List Char))
  | [] => .ok none
  | bd0 :: rest =>
    let bd1 := fs.expand bd0
    match (if bd1 = [] then auxDir else some bd1) with
    | none => findFileGo fs fileName auxDir rest
    | some bd =>
      match reMatchAgainstStarPct bd with
      | .unmodeled => .unmodeled
      | .fuelOut => .unmodeled
      | .ok true =>
        let bd' := bd.dropLast
        match walkFind fs bd' fileName with
        | some full => .ok (some full)
        | none =>
          let full := pyJoin bd' fileName
          if fs.exists? full then .ok (some full)
          else findFileGo fs fileName auxDir rest
      | .ok false =>
        let full := pyJoin bd fileName
        if fs.exists? full then .ok (some full)
        else findFileGo fs fileName auxDir rest

/-- `Distrib.find_file_on_path` (builder.py 429-469): nothing to search
when `buildFilePath` is empty; otherwise walk its colon-separated
elements, substituting `auxDir` for an empty element. -/
def findFileOnPath (fs : FSOracle) (buildFilePath fileName : List Char)
    (auxDir : Option (List Char)) : PyResult (Option (List Char)) :=
  if buildFilePath = [] then .ok none
  else findFileGo fs fileName auxDir (pySplitOn ':' buildFilePath)

/-- A concrete filesystem for the C8 evidence: the tree under
`/data/builds` contains `sub/foo.build`, and no other path exists. -/
def fsRecursiveExample : FSOracle where
  expand := fun s => s
  exists? := fun p => p = "/data/builds/sub/foo.build".data
  walk := fun bd =>
    if bd = "/data/builds".data then
      [("/data/builds".data, []), ("/data/builds/sub".data, ["foo.build".data])]
    else []

/-! ## Lemmas about the expander -/

lemma applyOps_nil (fuel : Nat) (value : List Char) (diags : List Diag) :
    applyOps fuel [] value diags = .ok (value, diags) := by
  cases fuel <;> rfl

lemma dropWhile_append_at (name : List Char) (h : '@' ∉ name) :
    (name ++ ['@']).dropWhile (fun d => d ≠ '@') = ['@'] := by
  induction name with
  | nil => rfl
  | cons c rest ih =>
    have hc : c ≠ '@' := by intro e; exact h (by simp [e])
    have ih' := ih (fun m => h (List.mem_cons_of_mem _ m))
    rw [List.cons_append, List.dropWhile_cons, if_pos (by simp [hc]), ih']

lemma takeWhile_append_at (name : List Char) (h : '@' ∉ name) :
    (name ++ ['@']).takeWhile (fun d => d ≠ '@') = name := by
  induction name with
  | nil => rfl
  | cons c rest ih =>
    have hc : c ≠ '@' := by intro e; exact h (by simp [e])
    have ih' := ih (fun m => h (List.mem_cons_of_mem _ m))
    rw [List.cons_append, List.takeWhile_cons, if_pos (by simp [hc]), ih']

lemma takeWhile_nodot (name : List Char) (hdot : '.' ∉ name) :
    name.takeWhile (fun d => d ≠ '.') = name := by
  rw [List.takeWhile_eq_self_iff]
  intro x hx
  simp only [decide_eq_true_eq]
  intro e
  rw [e] at hx
  exact hdot hx

lemma dropWhile_nodot (name : List Char) (hdot : '.' ∉ name) :
    name.dropWhile (fun d => d ≠ '.') = [] := by
  rw [List.dropWhile_eq_nil_iff]
  intro x hx
  simp only [decide_eq_true_eq]
  intro e
  rw [e] at hx
  exact hdot hx

lemma parseVarExpr_plain (name : List Char) (hne : name ≠ []) (hdot : '.' ∉ name)
    (hdollar : name.head? ≠ some '$') :
    parseVarExpr name = some (false, name, none) := by
  cases name with
  | nil => exact absurd rfl hne
  | cons c rest =>
    have hc : c ≠ '$' := by intro e; exact hdollar (by simp [e])
    have hcd : c ≠ '.' := by intro e; exact hdot (by simp [e])
    simp only [parseVarExpr]
    rw [if_neg (by simp [hc]), if_pos hcd, takeWhile_nodot _ hdot, dropWhile_nodot _ hdot]
    rfl

lemma subVarRes_missing (fuel : Nat) (bv : Store) (name : List Char)
    (hne : name ≠ []) (hdot : '.' ∉ name) (hdollar : name.head? ≠ some '$')
    (habs : storeGet bv (pyUpper name) = none) :
    subVarRes fuel bv name = .ok ("XXX".data, []) := by
  unfold subVarRes
  rw [parseVarExpr_plain name hne hdot hdollar]
  simp [habs]

lemma subVarRes_falsy (fuel : Nat) (bv : Store) (name : List Char) (v : Option (List Char))
    (hne : name ≠ []) (hdot : '.' ∉ name) (hdollar : name.head? ≠ some '$')
    (hget : storeGet bv (pyUpper name) = some v) (hfalsy : pyTruthy v = false) :
    subVarRes fuel bv name = .ok (pyUpper name, [Diag.cantGuess (pyUpper name)]) := by
  unfold subVarRes
  rw [parseVarExpr_plain name hne hdot hdollar]
  simp [hget, hfalsy, applyOps_nil]

lemma substTokens_single_ok (fuel : Nat) (bv : Store) (name out : List Char) (ds : List Diag)
    (hne : name ≠ []) (hat : '@' ∉ name)
    (hsub : subVarRes fuel bv name = .ok (out, ds)) :
    substTokens fuel bv ('@' :: name ++ ['@']) = .ok (out, ds) := by
  unfold substTokens
  show substTokensGo fuel bv (Nat.succ (name ++ ['@']).length) ('@' :: (name ++ ['@'])) = _
  rw [substTokensGo.eq_3, if_pos rfl, dropWhile_append_at name hat, takeWhile_append_at name hat]
  simp [hne, hsub, substTokensGo.eq_1]

lemma substTokens_single_fuelOut (fuel : Nat) (bv : Store) (name : List Char)
    (hne : name ≠ []) (hat : '@' ∉ name)
    (hsub : subVarRes fuel bv name = .fuelOut) :
    substTokens fuel bv ('@' :: name ++ ['@']) = .fuelOut := by
  unfold substTokens
  show substTokensGo fuel bv (Nat.succ (name ++ ['@']).length) ('@' :: (name ++ ['@'])) = _
  rw [substTokensGo.eq_3, if_pos rfl, dropWhile_append_at name hat, takeWhile_append_at name hat]
  simp [hne, hsub]

lemma applyOps_strip_fuelOut : ∀ (fuel : Nat) (value : List Char) (diags : List Diag),
    applyOps fuel "strip()".data value diags = PyResult.fuelOut := by
  intro fuel
  induction fuel with
  | zero => intro v d; rfl
  | succ n ih =>
    intro v d
    have step : applyOps (n + 1) "strip()".data v d
        = applyOps n "strip()".data v (d ++ [Diag.unexpectedModifier "strip()".data]) := rfl
    rw [step]
    exact ih v _

lemma subVarRes_strip_fuelOut (fuel : Nat) :
    subVarRes fuel [("VERSION".data, some "1.0".data)] "VERSION.strip()".data
      = PyResult.fuelOut := by
  have key : subVarRes fuel [("VERSION".data, some "1.0".data)] "VERSION.strip()".data
      = (match applyOps fuel "strip()".data "1.0".data [] with
        | PyResult.ok (v, ds) => PyResult.ok (v, ds)
        | PyResult.fuelOut => PyResult.fuelOut
        | PyResult.unmodeled => PyResult.unmodeled) := rfl
  rw [key, applyOps_strip_fuelOut]

/-- Claim C2: the source claims an unknown operation in a token chain is
warned about, skipped, and expansion terminates.  In the code the `else`
branch of the `while op:` loop (builder.py 639-643) never consumes `op`,
so `applyOps` never returns for any amount of fuel: exhausting every
bound proves the loop diverges, and the whole line expansion of
`@VERSION.strip()@` diverges with it. -/
theorem claim_C2_unknown_op_diverges (fuel : Nat) (value : List Char) (diags : List Diag) :
    applyOps fuel "strip()".data value diags = PyResult.fuelOut ∧
    expandBuildLine fuel [("VERSION".data, some "1.0".data)] "@VERSION.strip()@".data
      = PyResult.fuelOut := by
  refine ⟨applyOps_strip_fuelOut fuel value diags, ?_⟩
  have hline : "@VERSION.strip()@".data = '@' :: "VERSION.strip()".data ++ ['@'] := by decide
  have key : expandBuildLine fuel [("VERSION".data, some "1.0".data)]
        "@VERSION.strip()@".data
      = (match substTokens fuel [("VERSION".data, some "1.0".data)]
            "@VERSION.strip()@".data with
        | PyResult.ok (out, ds) => PyResult.ok (applyCallbacks defaultCallbacks out, ds)
        | PyResult.fuelOut => PyResult.fuelOut
        | PyResult.unmodeled => PyResult.unmodeled) := rfl
  rw [key, hline, substTokens_single_fuelOut fuel _ _ (by decide) (by decide)
    (subVarRes_strip_fuelOut fuel)]

/-- Claim C1 counterexample: with the store seeded exactly as
`createPackage` does (builder.py 248-256, 589-595) from an empty
configuration, expanding the line `@FOOBAR@` yields the placeholder
`XXX` — not the literal name `FOOBAR` — and no diagnostic at all,
because `FOOBAR` is absent from the store and `subVar` only emits the
diagnostic for a key that is present with an empty value. -/
theorem claim_C1_counterexample :
    expandBuildLine 0 (seedBuilderVars emptyGuessEnv [] "prod".data "1.0".data none)
        "@FOOBAR@".data = .ok ("XXX".data, []) ∧
    containsSub "FOOBAR".data "XXX".data = false := by
  constructor
  · decide
  · decide

/-- Claim C1 (amended): for a token `@NAME@` (no dot, no `@`, no leading
`$` in the name), if the uppercased name is present in the store with an
empty or `None` value, expansion substitutes the literal uppercased name
and emits exactly one diagnostic naming the configuration key and
environment variable; if the name is absent from the store, expansion
substitutes the placeholder `XXX` and emits no diagnostic. -/
theorem claim_C1_amended_unbound_token (fuel : Nat) (bv : Store) (name : List Char)
    (v : Option (List Char)) (hne : name ≠ []) (hat : '@' ∉ name) (hdot : '.' ∉ name)
    (hdollar : name.head? ≠ some '$') :
    (storeGet bv (pyUpper name) = some v → pyTruthy v = false →
      substTokens fuel bv ('@' :: name ++ ['@'])
        = .ok (pyUpper name, [Diag.cantGuess (pyUpper name)])) ∧
    (storeGet bv (pyUpper name) = none →
      substTokens fuel bv ('@' :: name ++ ['@']) = .ok ("XXX".data, [])) := by
  constructor
  · intro hget hfalsy
    exact substTokens_single_ok fuel bv name _ _ hne hat
      (subVarRes_falsy fuel bv name v hne hdot hdollar hget hfalsy)
  · intro habs
    exact substTokens_single_ok fuel bv name _ _ hne hat
      (subVarRes_missing fuel bv name hne hdot hdollar habs)

/-- Witness for the amended C1 at concrete inputs: `@CVSROOT@` with a
failed guess stored as `None` becomes the literal `CVSROOT` with one
diagnostic; `@FOOBAR@` against an empty store becomes `XXX` silently. -/
theorem claim_C1_amended_unbound_token_witness :
    substTokens 0 [("CVSROOT".data, (none : Option (List Char)))]
        ('@' :: "CVSROOT".data ++ ['@'])
      = .ok ("CVSROOT".data, [Diag.cantGuess "CVSROOT".data]) ∧
    substTokens 0 [] ('@' :: "FOOBAR".data ++ ['@']) = .ok ("XXX".data, []) := by
  constructor
  · have h := (claim_C1_amended_unbound_token 0 [("CVSROOT".data, none)] "CVSROOT".data
      none (by decide) (by decide) (by decide) (by decide)).1 (by decide) (by decide)
    rw [show pyUpper "CVSROOT".data = "CVSROOT".data from by decide] at h
    exact h
  · exact (claim_C1_amended_unbound_token 0 [] "FOOBAR".data none (by decide) (by decide)
      (by decide) (by decide)).2 (by decide)


lemma takeWhile_dropWhile_nil (p : Char → Bool) (l : List Char) :
    (l.dropWhile p).takeWhile p = [] := by
  induction l with
  | nil => rfl
  | cons c rest ih =>
    rw [List.dropWhile_cons]
    by_cases h : p c = true
    · rw [if_pos h]; exact ih
    · rw [if_neg h, List.takeWhile_cons, if_neg h]

lemma all_prefix_takeWhile (p : Char → Bool) (s : List Char) :
    ∀ l : List Char, (∀ x ∈ s, p x = true) → s <+: l → s <+: l.takeWhile p := by
  induction s with
  | nil => intro l _ _; exact List.nil_prefix
  | cons a s' ih =>
    intro l hall hpre
    obtain ⟨t, ht⟩ := hpre
    subst ht
    rw [List.cons_append, List.takeWhile_cons, if_pos (hall a (by simp))]
    obtain ⟨u, hu⟩ := ih (s' ++ t) (fun x hx => hall x (by simp [hx])) ⟨t, rfl⟩
    exact ⟨u, by rw [List.cons_append, hu]⟩

lemma strip_takeWhile_nonws (n : Nat) :
    ∀ l : List Char, (stripVersionArgsGo n l).takeWhile (fun d => !(isPySpace d))
      = l.takeWhile (fun d => !(isPySpace d)) := by
  induction n with
  | zero =>
    intro l
    cases l with
    | nil => rfl
    | cons c rest => rfl
  | succ n ih =>
    intro l
    cases l with
    | nil => rfl
    | cons c rest =>
      rw [stripVersionArgsGo.eq_3]
      by_cases hm : isVerMatchAt (c :: rest) = true
      · rw [if_pos hm, ih]
        have hc : isPySpace c = true := by
          cases hcc : isPySpace c with
          | true => rfl
          | false =>
            exfalso
            simp [isVerMatchAt, hcc] at hm
        rw [takeWhile_dropWhile_nil, List.takeWhile_cons, if_neg (by simp [hc])]
      · rw [if_neg hm, List.takeWhile_cons, List.takeWhile_cons]
        by_cases hc : isPySpace c = true
        · rw [if_neg (by simp [hc]), if_neg (by simp [hc])]
        · rw [if_pos (by simp at hc; simp [hc]), if_pos (by simp at hc; simp [hc]), ih]


lemma isVerMatchAt_iff (c : Char) (X : List Char) :
    isVerMatchAt (c :: X) = true ↔
      isPySpace c = true ∧ ∃ d t, X = "version=".data ++ d :: t ∧ isPySpace d = false := by
  constructor
  · intro h
    rw [isVerMatchAt.eq_1] at h
    simp only [Bool.and_eq_true] at h
    obtain ⟨⟨hc, hpre⟩, hmatch⟩ := h
    refine ⟨hc, ?_⟩
    obtain ⟨u, hu⟩ := List.isPrefixOf_iff_prefix.mp hpre
    cases hdrop : X.drop 8 with
    | nil => rw [hdrop] at hmatch; simp at hmatch
    | cons d t =>
      rw [hdrop] at hmatch
      have hu8 : X.drop 8 = u := by
        rw [← hu]
        exact List.drop_left' (by decide)
      rw [hdrop] at hu8
      refine ⟨d, t, by rw [← hu, ← hu8], by simpa using hmatch⟩
  · rintro ⟨hc, d, t, hX, hd⟩
    subst hX
    have hpre : "version=".data.isPrefixOf ("version=".data ++ d :: t) = true := by
      rw [List.isPrefixOf_iff_prefix]
      exact List.prefix_append _ _
    have hdrop : ("version=".data ++ d :: t).drop 8 = d :: t := List.drop_left' (by decide)
    rw [isVerMatchAt.eq_1, hdrop]
    simp [hc, hpre, hd]

lemma strip_no_version_arg : ∀ (n : Nat) (l : List Char), l.length ≤ n →
    hasVersionArg (stripVersionArgsGo n l) = false := by
  intro n
  induction n with
  | zero =>
    intro l hl
    have h0 : l = [] := List.length_eq_zero.mp (Nat.le_zero.mp hl)
    subst h0
    rfl
  | succ n ih =>
    intro l hl
    cases l with
    | nil => rfl
    | cons c rest =>
      have hrest : rest.length ≤ n := by simpa using Nat.le_of_succ_le_succ (by simpa using hl)
      rw [stripVersionArgsGo.eq_3]
      by_cases hm : isVerMatchAt (c :: rest) = true
      · rw [if_pos hm]
        apply ih
        calc ((rest.drop 8).dropWhile (fun d => !(isPySpace d))).length
            ≤ (rest.drop 8).length := (List.dropWhile_suffix _).length_le
          _ ≤ rest.length := by rw [List.length_drop]; omega
          _ ≤ n := hrest
      · rw [if_neg hm]
        have hX := ih rest hrest
        cases hv : isVerMatchAt (c :: stripVersionArgsGo n rest) with
        | false =>
          rw [hasVersionArg, existsSuffix, hv]
          simpa [hasVersionArg] using hX
        | true =>
          exfalso
          obtain ⟨hc, d, t, hXeq, hd⟩ := (isVerMatchAt_iff _ _).mp hv
          have hver : ∀ x ∈ "version=".data, (!(isPySpace x)) = true := by decide
          have hall : ∀ x ∈ "version=".data ++ [d], (fun e => !(isPySpace e)) x = true := by
            intro x hx
            rcases List.mem_append.mp hx with hx1 | hx2
            · exact hver x hx1
            · simp only [List.mem_singleton] at hx2
              simp [hx2, hd]
          have hpre : ("version=".data ++ [d]) <+: stripVersionArgsGo n rest := by
            refine ⟨t, ?_⟩
            rw [hXeq]
            simp
          have h2 := all_prefix_takeWhile _ _ _ hall hpre
          rw [strip_takeWhile_nonws] at h2
          have h3 : ("version=".data ++ [d]) <+: rest :=
            h2.trans (List.takeWhile_prefix _)
          obtain ⟨t', ht'⟩ := h3
          have : isVerMatchAt (c :: rest) = true := by
            rw [isVerMatchAt_iff]
            exact ⟨hc, d, t', by rw [← ht']; simp, hd⟩
          exact hm this


/-- Claim C7 (amended): for every line matching `scons ... install`, the
scons rewrite step produces the stripped line (from which every
`\sversion=\S+` match has been removed, first conjunct) with
` version=@VERSION@` appended once, and ` baseversion=@REPOVERSION@`
appended once exactly when no `baseversion=` argument is already present;
and the full expansion of `scons opt=3 install` with VERSION `2.1g1` and
REPOVERSION `2.1` is `scons opt=3 install version=2.1g1 baseversion=2.1`
with no diagnostics. -/
theorem claim_C7_amended (l : List Char) (h : matchesSconsInstall l = true) :
    hasVersionArg (stripVersionArgs l) = false ∧
    (if matchesSconsInstall l then sconsRewrite l else l)
      = stripVersionArgs l ++ " version=@VERSION@".data
        ++ (if hasBaseversionArg (stripVersionArgs l ++ " version=@VERSION@".data) then []
            else " baseversion=@REPOVERSION@".data) ∧
    expandBuildLine 0 [("VERSION".data, some "2.1g1".data),
        ("REPOVERSION".data, some "2.1".data)] "scons opt=3 install".data
      = .ok ("scons opt=3 install version=2.1g1 baseversion=2.1".data, []) := by
  refine ⟨strip_no_version_arg l.length l le_rfl, ?_, by decide⟩
  rw [if_pos h]
  unfold sconsRewrite
  by_cases hb : hasBaseversionArg (stripVersionArgs l ++ " version=@VERSION@".data) = true
  · rw [if_pos hb, if_pos hb, List.append_nil]
  · rw [if_neg hb, if_neg hb]

/-- Claim C7 counterexample: the line `scons install baseversion=9`
matches the scons-install guard, yet its expansion appends no
`baseversion=<repository version>` at all — the existing `baseversion=9`
suppresses the append (builder.py 672-674), refuting the claim that
`baseversion=<repository version>` is appended exactly once for every
such line. -/
theorem claim_C7_counterexample :
    expandBuildLine 0 [("VERSION".data, some "2.1g1".data),
        ("REPOVERSION".data, some "2.1".data)] "scons install baseversion=9".data
      = .ok ("scons install baseversion=9 version=2.1g1".data, []) ∧
    containsSub "baseversion=2.1".data
        "scons install baseversion=9 version=2.1g1".data = false := by
  exact ⟨by decide, by decide⟩

/-- Witness for the amended C7 at a concrete line carrying a `version=`
argument, plus the concrete Example 2 expansion. -/
theorem claim_C7_amended_witness :
    hasVersionArg (stripVersionArgs "scons opt=3 install version=1.2".data) = false ∧
    expandBuildLine 0 [("VERSION".data, some "2.1g1".data),
        ("REPOVERSION".data, some "2.1".data)] "scons opt=3 install".data
      = .ok ("scons opt=3 install version=2.1g1 baseversion=2.1".data, []) := by
  have h := claim_C7_amended "scons opt=3 install version=1.2".data (by decide)
  exact ⟨h.1, h.2.2⟩



lemma storeGet_set_same (bv : Store) (k : List Char) (v : Option (List Char)) :
    storeGet (storeSet bv k v) k = some v := by
  induction bv with
  | nil => simp [storeSet, storeGet]
  | cons e rest ih =>
    by_cases h : e.1 = k
    · simp [storeSet, storeGet, h]
    · simp only [storeSet]
      rw [if_neg h]
      simp only [storeGet]
      rw [if_neg h]
      exact ih

lemma storeGet_set_other (bv : Store) (k k' : List Char) (v : Option (List Char))
    (h : k' ≠ k) :
    storeGet (storeSet bv k' v) k = storeGet bv k := by
  induction bv with
  | nil => simp [storeSet, storeGet, h]
  | cons e rest ih =>
    by_cases he : e.1 = k'
    · simp only [storeSet]
      rw [if_pos he]
      simp only [storeGet]
      rw [if_neg h, if_neg (by rw [he]; exact h)]
    · simp only [storeSet]
      rw [if_neg he]
      simp only [storeGet]
      by_cases hek : e.1 = k
      · rw [if_pos hek, if_pos hek]
      · rw [if_neg hek, if_neg hek]
        exact ih

lemma storeGet_seed_CVSROOT (E : GuessEnv) (bv : Store) (p v : List Char)
    (repo : Option (List Char)) :
    storeGet (seedBuilderVars E bv p v repo) "CVSROOT".data
      = some (guessCvsroot E (storeGetVal bv "CVSROOT".data)) := by
  unfold seedBuilderVars
  rw [storeGet_set_other _ _ _ _ (by decide), storeGet_set_other _ _ _ _ (by decide),
    storeGet_set_other _ _ _ _ (by decide), storeGet_set_other _ _ _ _ (by decide),
    storeGet_set_same]

lemma storeGet_seed_PRODUCT (E : GuessEnv) (bv : Store) (p v : List Char)
    (repo : Option (List Char)) :
    storeGet (seedBuilderVars E bv p v repo) "PRODUCT".data = some (some p) := by
  unfold seedBuilderVars
  rw [storeGet_set_other _ _ _ _ (by decide), storeGet_set_other _ _ _ _ (by decide),
    storeGet_set_same]

lemma storeGet_seed_VERSION (E : GuessEnv) (bv : Store) (p v : List Char)
    (repo : Option (List Char)) :
    storeGet (seedBuilderVars E bv p v repo) "VERSION".data = some (some v) := by
  unfold seedBuilderVars
  rw [storeGet_set_other _ _ _ _ (by decide), storeGet_set_same]

lemma storeGet_seed_REPOVERSION (E : GuessEnv) (bv : Store) (p v : List Char)
    (repo : Option (List Char)) :
    storeGet (seedBuilderVars E bv p v repo) "REPOVERSION".data
      = some (some (repo.getD v)) := by
  unfold seedBuilderVars
  rw [storeGet_set_same]



/-- Claim C10: `expandBuildFile` mutates the caller-supplied `builderVars`
mapping in place — the store visible after a call is the seeded store with
`CVSROOT`, `SVNROOT`, `PRODUCT`, `VERSION` and `REPOVERSION` assigned
(builder.py 589-595) — and because the parameter defaults to one shared
mutable dictionary (builder.py 534), a `CVSROOT` guessed during a first
default-argument call is still present in the store used by a second
default-argument call made in an environment that could not produce it. -/
theorem claim_C10_default_store_persists (fuel : Nat) (E1 E2 : GuessEnv)
    (r p1 v1 p2 v2 : List Char) (lines1 lines2 : List (List Char))
    (h1 : E1.environCVSROOT = some r) (hr : r ≠ [])
    (h2 : E2.environCVSROOT = none) (h3 : E2.hasCVSDir = false) :
    (∀ (bv : Store) (p v : List Char) (repo : Option (List Char))
        (lines : List (List Char)),
      (expandBuildFileRun fuel E1 bv p v repo lines).2 = seedBuilderVars E1 bv p v repo) ∧
    storeGet (seedBuilderVars E1 [] p1 v1 none) "PRODUCT".data = some (some p1) ∧
    storeGet (seedBuilderVars E1 [] p1 v1 none) "VERSION".data = some (some v1) ∧
    storeGet (seedBuilderVars E1 [] p1 v1 none) "REPOVERSION".data = some (some v1) ∧
    (let c1 := expandBuildFileCall fuel E1 none p1 v1 none lines1 []
     let c2 := expandBuildFileCall fuel E2 none p2 v2 none lines2 c1.2
     storeGet c2.1.2 "CVSROOT".data = some (some r)) ∧
    storeGet (seedBuilderVars E2 [] p2 v2 none) "CVSROOT".data = some none := by
  have g1 : guessCvsroot E1 none = some r := by
    unfold guessCvsroot
    rw [h1]
    rfl
  have g2 : guessCvsroot E2 (some r) = some r := by
    unfold guessCvsroot
    rw [if_pos (by simp [pyTruthy, hr])]
  have g3 : guessCvsroot E2 none = none := by
    unfold guessCvsroot
    rw [h2, if_neg (by simp [pyTruthy])]
    simp [h3]
  refine ⟨fun bv p v repo lines => rfl, storeGet_seed_PRODUCT _ _ _ _ _,
    storeGet_seed_VERSION _ _ _ _ _, ?_, ?_, ?_⟩
  · simpa using storeGet_seed_REPOVERSION E1 [] p1 v1 none
  · show storeGet (seedBuilderVars E2 (seedBuilderVars E1 [] p1 v1 none) p2 v2 none)
      "CVSROOT".data = some (some r)
    rw [storeGet_seed_CVSROOT]
    have hval : storeGetVal (seedBuilderVars E1 [] p1 v1 none) "CVSROOT".data = some r := by
      unfold storeGetVal
      rw [storeGet_seed_CVSROOT]
      show guessCvsroot E1 (storeGetVal [] "CVSROOT".data) = some r
      exact g1
    rw [hval, g2]
  · rw [storeGet_seed_CVSROOT]
    show some (guessCvsroot E2 (storeGetVal [] "CVSROOT".data)) = some none
    rw [show storeGetVal [] "CVSROOT".data = none from rfl, g3]



/-- Witness for C10: two concrete default-argument calls; the first call
guesses `cvsroot1` from its environment, the second runs with nothing to
guess from and still sees `cvsroot1` in its binding store. -/
theorem claim_C10_default_store_persists_witness :
    (let c1 := expandBuildFileCall 0
        ⟨some "cvsroot1".data, none, false, none, false, none, none⟩ none
        "a".data "1".data none [] []
     let c2 := expandBuildFileCall 0 emptyGuessEnv none "b".data "2".data none [] c1.2
     storeGet c2.1.2 "CVSROOT".data = some (some "cvsroot1".data)) := by
  exact (claim_C10_default_store_persists 0
    ⟨some "cvsroot1".data, none, false, none, false, none, none⟩ emptyGuessEnv
    "cvsroot1".data "a".data "1".data "b".data "2".data [] []
    rfl (by decide) rfl rfl).2.2.2.2.1



/-- Claim C3 counterexample: a second eupspkg `createPackage` call with
the tarball already on the server, `overwrite=False` and `force` unset
returns the same DistributionID but still records the external
`pkgbuild create` verb as invoked — the verb runs before the existence
check (eupspkg.py 456-470 versus 480-484). -/
theorem claim_C3_counterexample :
    (eupspkgCreatePackage ⟨true, true, true, true, false, false, true⟩ false
        "afw".data "7.3".data).1 = .ok "eupspkg:afw-7.3.eupspkg".data ∧
    (eupspkgCreatePackage ⟨true, true, true, true, false, false, true⟩ false
        "afw".data "7.3".data).2.createVerbInvoked = true := by
  exact ⟨rfl, rfl⟩

/-- Claim C3 (amended): when the artifact already exists and neither
`overwrite` nor `Eups.force` is set, both variants return the same
DistributionID a fresh creation would return and leave the artifact
complete and untouched; the builder variant performs no template
expansion, and the eupspkg variant does not re-write the tarball but
does re-invoke the external create verb (in a fresh temporary directory
that is removed afterwards). -/
theorem claim_C3_amended (Wb Wb2 : BuilderCreateW) (We : EupspkgCreateW)
    (p lv q v bf : List Char)
    (hb1 : Wb.buildFile = some bf) (hb2 : Wb.buildsDirOk = true)
    (hb3 : Wb.artifactReadable = true) (hb4 : Wb.force = false)
    (he1 : We.createVerbOk = true) (he2 : We.productsDirOk = true)
    (he3 : We.tfnExists = true) (he4 : We.force = false)
    (hc1 : Wb2.buildFile = some bf) (hc2 : Wb2.buildsDirOk = true)
    (hc3 : Wb2.artifactReadable = false) (hc4 : Wb2.noaction = false)
    (hc5 : Wb2.openReadOk = true) (hc6 : Wb2.openWriteOk = true)
    (hc7 : Wb2.expandOutcome = .success) :
    builderCreatePackage Wb false p lv
      = (.ok (some (buildPrefix ++ p ++ '-' :: lv ++ ".build".data)),
         ⟨false, .complete⟩) ∧
    eupspkgCreatePackage We false q v
      = (.ok (eupspkgPrefix ++ q ++ '-' :: v ++ ".eupspkg".data),
         ⟨true, false, true, .complete⟩) ∧
    (builderCreatePackage Wb2 false p lv).1
      = .ok (some (buildPrefix ++ p ++ '-' :: lv ++ ".build".data)) := by
  obtain ⟨f1, f2, f3, f4, f5, f6, f7, f8, f9⟩ := Wb
  obtain ⟨g1, g2, g3, g4, g5, g6, g7, g8, g9⟩ := Wb2
  obtain ⟨e1, e2, e3, e4, e5, e6, e7⟩ := We
  simp only at hb1 hb2 hb3 hb4 he1 he2 he3 he4 hc1 hc2 hc3 hc4 hc5 hc6 hc7
  subst hb1 hb2 hb3 hb4 he1 he2 he3 he4 hc1 hc2 hc3 hc4 hc5 hc6 hc7
  refine ⟨?_, ?_, ?_⟩
  · simp [builderCreatePackage]
  · simp [eupspkgCreatePackage]
  · simp [builderCreatePackage]



/-- Witness for the amended C3: concrete worlds in which the builder
second call does not expand and the eupspkg second call does not tar. -/
theorem claim_C3_amended_witness :
    (builderCreatePackage ⟨some "bf".data, false, false, false, true, true, true, true,
        .success⟩ false "afw".data "7.3+1".data).2.expanded = false ∧
    (eupspkgCreatePackage ⟨true, true, true, true, false, false, true⟩ false
        "afw".data "7.3".data).2.tarInvoked = false := by
  have h := claim_C3_amended
    ⟨some "bf".data, false, false, false, true, true, true, true, .success⟩
    ⟨some "bf".data, false, false, false, true, false, true, true, .success⟩
    ⟨true, true, true, true, false, false, true⟩
    "afw".data "7.3+1".data "afw".data "7.3".data "bf".data
    rfl rfl rfl rfl rfl rfl rfl rfl rfl rfl rfl rfl rfl rfl rfl
  exact ⟨by rw [h.1], by rw [h.2.1]⟩

/-- Claim C4: in both variants, when writing the artifact fails (an
`IOError` from the guarded write in the builder, a failing `tar` in
eupspkg), the partially written artifact is unlinked before the error is
surfaced, so the artifact file ends absent, never half-written
(builder.py 261-266; eupspkg.py 493-498). -/
theorem claim_C4_write_failure_removes_partial (Wb : BuilderCreateW) (We : EupspkgCreateW)
    (p lv q v bf : List Char)
    (hb1 : Wb.buildFile = some bf) (hb2 : Wb.buildsDirOk = true)
    (hb3 : Wb.artifactReadable = false) (hb4 : Wb.noaction = false)
    (hb5 : Wb.openReadOk = true) (hb6 : Wb.openWriteOk = true)
    (hb7 : Wb.expandOutcome = .ioError)
    (he1 : We.createVerbOk = true) (he2 : We.productsDirOk = true)
    (he3 : We.tfnExists = false) (he4 : We.noaction = false) (he5 : We.tarOk = false) :
    builderCreatePackage Wb false p lv
      = (.error "Failed to write artifact".data, ⟨true, .absent⟩) ∧
    eupspkgCreatePackage We false q v
      = (.error "Failed to write tarball".data, ⟨true, true, true, .absent⟩) := by
  obtain ⟨f1, f2, f3, f4, f5, f6, f7, f8, f9⟩ := Wb
  obtain ⟨e1, e2, e3, e4, e5, e6, e7⟩ := We
  simp only at hb1 hb2 hb3 hb4 hb5 hb6 hb7 he1 he2 he3 he4 he5
  subst hb1 hb2 hb3 hb4 hb5 hb6 hb7 he1 he2 he3 he4 he5
  exact ⟨by simp [builderCreatePackage], by simp [eupspkgCreatePackage]⟩

/-- Witness for C4 at concrete worlds whose write step fails. -/
theorem claim_C4_write_failure_removes_partial_witness :
    (builderCreatePackage ⟨some "bf".data, false, false, false, true, false, true, true,
        .ioError⟩ false "afw".data "7.3".data).2.artifact = FileSt.absent ∧
    (eupspkgCreatePackage ⟨true, true, true, false, false, false, false⟩ false
        "afw".data "7.3".data).2.tarball = FileSt.absent := by
  have h := claim_C4_write_failure_removes_partial
    ⟨some "bf".data, false, false, false, true, false, true, true, .ioError⟩
    ⟨true, true, true, false, false, false, false⟩
    "afw".data "7.3".data "afw".data "7.3".data "bf".data
    rfl rfl rfl rfl rfl rfl rfl rfl rfl rfl rfl rfl
  exact ⟨by rw [h.1], by rw [h.2]⟩



/-- Claim C5: the synthesized eupspkg install script guards each
external pkgbuild verb so that a failing verb terminates the script with
a distinct stage-identifying exit code — fetch `-1`, prep `-2`, config
`-3`, build `-4`, install `-5` — in that order: the script text contains
exactly those guard lines, and under the first-failure semantics of the
guards the exit code identifies the first failing stage
(eupspkg.py 609-624). -/
theorem claim_C5_stage_exit_codes (buildDir tfname : List Char)
    (setups : List (List Char)) (qopts : List Char) (fails : List Char → Bool) :
    (∃ s0 s1 s2 s3 s4 s5 : List Char,
      buildScriptText buildDir tfname setups qopts
        = s0 ++ guardLine qopts "fetch".data " ".data "-1".data
          ++ s1 ++ guardLine qopts "prep".data "  ".data "-2".data
          ++ s2 ++ guardLine qopts "config".data "  ".data "-3".data
          ++ s3 ++ guardLine qopts "build".data "   ".data "-4".data
          ++ s4 ++ guardLine qopts "install".data " ".data "-5".data ++ s5) ∧
    pkgbuildGuards = [("fetch".data, -1), ("prep".data, -2), ("config".data, -3),
      ("build".data, -4), ("install".data, -5)] ∧
    (fails "fetch".data = true → runGuardedVerbs fails pkgbuildGuards = some (-1)) ∧
    (fails "fetch".data = false → fails "prep".data = true →
      runGuardedVerbs fails pkgbuildGuards = some (-2)) ∧
    (fails "fetch".data = false → fails "prep".data = false →
      fails "config".data = true →
      runGuardedVerbs fails pkgbuildGuards = some (-3)) ∧
    (fails "fetch".data = false → fails "prep".data = false →
      fails "config".data = false → fails "build".data = true →
      runGuardedVerbs fails pkgbuildGuards = some (-4)) ∧
    (fails "fetch".data = false → fails "prep".data = false →
      fails "config".data = false → fails "build".data = false →
      fails "install".data = true →
      runGuardedVerbs fails pkgbuildGuards = some (-5)) ∧
    (fails "fetch".data = false → fails "prep".data = false →
      fails "config".data = false → fails "build".data = false →
      fails "install".data = false →
      runGuardedVerbs fails pkgbuildGuards = none) := by
  refine ⟨⟨bsHead ++ pipesQuote buildDir ++ bsAfterDir ++ pipesQuote tfname ++ bsAfterTar
      ++ List.intercalate "\n".data setups ++ bsBeforeFetch,
      bsBeforePrep, bsBeforeConfig, ['\n'], ['\n'], ['\n'], ?_⟩, rfl, ?_, ?_, ?_, ?_, ?_, ?_⟩
  · simp [buildScriptText]
  · intro h1
    simp [runGuardedVerbs, pkgbuildGuards, h1]
  · intro h1 h2
    simp [runGuardedVerbs, pkgbuildGuards, h1, h2]
  · intro h1 h2 h3
    simp [runGuardedVerbs, pkgbuildGuards, h1, h2, h3]
  · intro h1 h2 h3 h4
    simp [runGuardedVerbs, pkgbuildGuards, h1, h2, h3, h4]
  · intro h1 h2 h3 h4 h5
    simp [runGuardedVerbs, pkgbuildGuards, h1, h2, h3, h4, h5]
  · intro h1 h2 h3 h4 h5
    simp [runGuardedVerbs, pkgbuildGuards, h1, h2, h3, h4, h5]

/-- Witness for C5: a run whose first failing verb is `config` exits
with code `-3`. -/
theorem claim_C5_stage_exit_codes_witness :
    runGuardedVerbs (fun v => decide (v = "config".data)) pkgbuildGuards
      = some (-3) := by
  exact (claim_C5_stage_exit_codes [] [] [] []
    (fun v => decide (v = "config".data))).2.2.2.2.1 (by decide) (by decide) (by decide)

/-- Claim C9: eupspkg `installPackage` computes the log path by joining
the caller's `buildDir` with `build.log` (eupspkg.py 557) before the
`if not buildDir:` default (eupspkg.py 560-561), so a call with
`buildDir=None` fails inside `os.path.join` before the documented
default can take effect; with a non-empty `buildDir` the call proceeds
without consulting the default. -/
theorem claim_C9_logfile_before_default (d bd : List Char) (h : bd ≠ []) :
    eupspkgInstallPre d none
      = .error "AttributeError inside os.path.join(None, build.log)".data ∧
    eupspkgInstallPre d (some bd) = .ok (pyJoin bd "build.log".data, bd, false) := by
  refine ⟨rfl, ?_⟩
  simp only [eupspkgInstallPre]
  rw [if_neg h]

/-- Witness for C9 at a concrete default and build directory. -/
theorem claim_C9_logfile_before_default_witness :
    eupspkgInstallPre "/opt/default".data none
      = .error "AttributeError inside os.path.join(None, build.log)".data ∧
    eupspkgInstallPre "/opt/default".data (some "/b".data)
      = .ok ("/b/build.log".data, "/b".data, false) := by
  have h := claim_C9_logfile_before_default "/opt/default".data "/b".data (by decide)
  refine ⟨h.1, ?_⟩
  rw [h.2]
  rfl

/-- Claim C8 evidence of the code bug: the recursive-search condition is
`re.match(bd, r"\*%")` (builder.py 445) with the arguments swapped, so a
path element carrying the trailing recursive flag, such as
`/data/builds%`, never enters the recursive branch: the condition
evaluates to no-match, `find_file_on_path` returns nothing even though
the `os.walk` search the branch would have run finds the file under
`/data/builds/sub`. -/
theorem claim_C8_recursive_flag_dead :
    reMatchAgainstStarPct "/data/builds%".data = .ok false ∧
    findFileOnPath fsRecursiveExample "/data/builds%".data "foo.build".data none
      = .ok none ∧
    walkFind fsRecursiveExample "/data/builds".data "foo.build".data
      = some "/data/builds/sub/foo.build".data := by
  exact ⟨rfl, rfl, rfl⟩


end Eups
